import Mathlib

/-!
Verification of the authenticated request pipeline of the django-react-lms
frontend: the useAxios client wrapper that attaches bearer tokens at
construction and, in a request interceptor, refreshes an expired access
token once before the request is dispatched.
-/

namespace LMS

/-- A new access/refresh pair as returned by the backend refresh endpoint. -/
structure TokenPair where
  access : String
  refresh : String
deriving Repr, DecidableEq

/-- Persisted session state: the two cookie values under the fixed keys
access_token and refresh_token; an absent cookie is none. -/
structure Store where
  access_token : Option String
  refresh_token : Option String
deriving Repr, DecidableEq

/-- An outgoing request, reduced to the one header the pipeline touches. -/
structure Req where
  authorization : Option String
deriving Repr, DecidableEq

/-- Result of running the request interceptor: the request that proceeds,
the persisted state afterwards, and how many renewal calls were made. -/
structure StepResult where
  req : Req
  store : Store
  refreshCalls : Nat
deriving Repr, DecidableEq

/-- JavaScript truthiness of an optional cookie value: an absent cookie and
the empty string are both falsy. -/
def truthy : Option String → Bool
  | none => false
  | some s => !s.isEmpty

/-- The template-literal header value `Bearer ${token}`. -/
def bearer (t : String) : String := "Bearer " ++ t

/-- Modelled from the spec: the missing utils/auth decode step. The access
token encodes an expiry instant decodable from the token string alone,
without network access; a token whose expiry claim cannot be decoded yields
none. The token is modelled as carrying its expiry instant in decimal. -/
def decodeExp (token : String) : Option Nat :=
  let cs := token.data
  if cs.isEmpty then none
  else if cs.all (fun c => c.isDigit) then
    some (cs.foldl (fun n c => n * 10 + (c.toNat - 48)) 0)
  else none

/-- Modelled from the spec: the missing utils/auth isAccessTokenExpired.
A token is expired when the current time is not before its decoded expiry;
a token whose expiry cannot be decoded counts as expired. -/
def isAccessTokenExpired (token : String) (now : Nat) : Bool :=
  match decodeExp token with
  | none => true
  | some e => decide (e ≤ now)

/-- Modelled from the spec: the missing utils/auth setAuthUser, which
persists the new access/refresh pair, overwriting the stored pair. -/
def setAuthUser (access refresh : String) (_store : Store) : Store :=
  { access_token := some access, refresh_token := some refresh }

/-- Modelled from the spec: the missing utils/auth getRefreshedToken, the
renewal network call; its outcome for this request (a new pair, or a thrown
error) is supplied by the environment. -/
def getRefreshedToken (outcome : Except String TokenPair) : Except String TokenPair :=
  outcome

/-- The axios instance produced by useAxios: the credential pair captured
from the cookies at construction, and the default headers. -/
structure AxiosInstance where
  capturedAccess : Option String
  capturedRefresh : Option String
  defaultAuth : Option String
deriving Repr, DecidableEq

/-- Embeds the construction part of useAxios: read both cookies once and
set the default Authorization header when the access token is truthy. -/
def useAxios (store : Store) : AxiosInstance :=
  let accessToken := store.access_token
  let refreshToken := store.refresh_token
  { capturedAccess := accessToken
    capturedRefresh := refreshToken
    defaultAuth := if truthy accessToken then accessToken.map bearer else none }

/-- Embeds the request interceptor registered by useAxios. The guard
mirrors the JavaScript test (!accessToken || !refreshToken), where an
absent or empty cookie is falsy; the try/catch around the renewal call is
the Except tryCatch, and the catch branch only logs, leaving the request
and the store untouched. -/
def requestInterceptor (capturedAccess capturedRefresh : Option String) (now : Nat)
    (outcome : Except String TokenPair) (store : Store) (req : Req) :
    Except String StepResult :=
  match capturedAccess, capturedRefresh with
  | some a, some r =>
    if a.isEmpty || r.isEmpty then
      Except.ok ⟨req, store, 0⟩
    else if !isAccessTokenExpired a now then
      Except.ok ⟨req, store, 0⟩
    else
      Except.tryCatch
        (do
          let response ← getRefreshedToken outcome
          let store' := setAuthUser response.access response.refresh store
          let req' : Req := { req with authorization := some (bearer response.access) }
          Except.ok (⟨req', store', 1⟩ : StepResult))
        (fun _ => Except.ok ⟨req, store, 1⟩)
  | _, _ => Except.ok ⟨req, store, 0⟩

/-- A fresh request entering the interceptor: it carries the default
headers set at instance construction. -/
def newRequest (inst : AxiosInstance) : Req := { authorization := inst.defaultAuth }

/-- One request issued through the client: build the request with the
default headers and run the interceptor with the captured credential pair
against the current persisted state. -/
def dispatch (inst : AxiosInstance) (now : Nat) (outcome : Except String TokenPair)
    (store : Store) : Except String StepResult :=
  requestInterceptor inst.capturedAccess inst.capturedRefresh now outcome store
    (newRequest inst)

/-- Number of renewal calls recorded by an interception outcome. -/
def callCount : Except String StepResult → Nat
  | Except.ok res => res.refreshCalls
  | Except.error _ => 0

/-- Decoding the same token twice, as a pair of both results. -/
def decodeTwice (t : String) : Option Nat × Option Nat := (decodeExp t, decodeExp t)

/-- A token whose expiry decodes is a nonempty string. -/
theorem decode_nonempty {a : String} {e : Nat} (h : decodeExp a = some e) :
    a.isEmpty = false := by
  unfold decodeExp at h
  dsimp only at h
  split at h
  · exact absurd h (by simp)
  · split at h
    · rename_i hne _
      rw [Bool.eq_false_iff]
      intro hempty
      rw [String.isEmpty_iff] at hempty
      subst hempty
      simp at hne
    · exact absurd h (by simp)

/-- A token whose expiry cannot be decoded counts as expired at any time. -/
theorem malformed_expired {a : String} (h : decodeExp a = none) (now : Nat) :
    isAccessTokenExpired a now = true := by
  unfold isAccessTokenExpired
  rw [h]

/-- C1: when the stored access token is expired and the stored refresh token
is accepted by the backend, exactly one renewal call is made, the persisted
state is overwritten with the returned pair, and the outgoing request
carries the new access token in its Authorization header. -/
theorem refresh_success_updates_state (store : Store) (a r : String) (now : Nat)
    (p : TokenPair)
    (ha : store.access_token = some a) (hr : store.refresh_token = some r)
    (hae : a.isEmpty = false) (hre : r.isEmpty = false)
    (hex : isAccessTokenExpired a now = true) :
    dispatch (useAxios store) now (Except.ok p) store =
      Except.ok ⟨⟨some (bearer p.access)⟩, ⟨some p.access, some p.refresh⟩, 1⟩ := by
  simp [dispatch, useAxios, newRequest, requestInterceptor, truthy, ha, hr, hae, hre, hex,
    Except.tryCatch, getRefreshedToken, setAuthUser, bind, Except.bind]

/-- Witness for C1 at a concrete expired token and accepted refresh. -/
theorem refresh_success_updates_state_witness :
    dispatch (useAxios ⟨some "50", some "r"⟩) 100 (Except.ok ⟨"200", "r2"⟩)
        ⟨some "50", some "r"⟩ =
      Except.ok ⟨⟨some (bearer "200")⟩, ⟨some "200", some "r2"⟩, 1⟩ :=
  refresh_success_updates_state ⟨some "50", some "r"⟩ "50" "r" 100 ⟨"200", "r2"⟩
    rfl rfl rfl rfl rfl

/-- C2: when the stored access token is expired and the renewal call fails,
the request still proceeds carrying the stale access token, and the
persisted state is left unchanged. -/
theorem refresh_failure_sends_stale (store : Store) (a r : String) (now : Nat)
    (err : String)
    (ha : store.access_token = some a) (hr : store.refresh_token = some r)
    (hae : a.isEmpty = false) (hre : r.isEmpty = false)
    (hex : isAccessTokenExpired a now = true) :
    dispatch (useAxios store) now (Except.error err) store =
      Except.ok ⟨⟨some (bearer a)⟩, store, 1⟩ := by
  have hst : store = ⟨some a, some r⟩ := by
    cases store
    simp_all
  subst hst
  simp [dispatch, useAxios, newRequest, requestInterceptor, truthy, hae, hre, hex,
    Except.tryCatch, getRefreshedToken, bind, Except.bind]

/-- Witness for C2 at a concrete expired token and failing renewal call. -/
theorem refresh_failure_sends_stale_witness :
    dispatch (useAxios ⟨some "50", some "r"⟩) 100 (Except.error "boom")
        ⟨some "50", some "r"⟩ =
      Except.ok ⟨⟨some (bearer "50")⟩, ⟨some "50", some "r"⟩, 1⟩ :=
  refresh_failure_sends_stale ⟨some "50", some "r"⟩ "50" "r" 100 "boom"
    rfl rfl rfl rfl rfl

/-- C3: when the stored access token is present and its decoded expiry is
after the current time, the outgoing request carries exactly the stored
access token and no renewal call is made, whatever the refresh cookie and
whatever the renewal endpoint would have answered. -/
theorem valid_token_passthrough (store : Store) (a : String) (e now : Nat)
    (outcome : Except String TokenPair)
    (ha : store.access_token = some a)
    (hd : decodeExp a = some e) (hlt : now < e) :
    dispatch (useAxios store) now outcome store =
      Except.ok ⟨⟨some (bearer a)⟩, store, 0⟩ := by
  have hae : a.isEmpty = false := decode_nonempty hd
  have hnex : isAccessTokenExpired a now = false := by
    unfold isAccessTokenExpired
    rw [hd]
    simp
    omega
  cases store with
  | mk at_ rt =>
    simp only at ha
    subst ha
    cases rt with
    | none =>
      simp [dispatch, useAxios, newRequest, requestInterceptor, truthy, hae]
    | some r =>
      by_cases hre : r.isEmpty
      · simp [dispatch, useAxios, newRequest, requestInterceptor, truthy, hae, hre]
      · simp [dispatch, useAxios, newRequest, requestInterceptor, truthy, hae, hre, hnex]

/-- Witness for C3 at a concrete token valid at the request time. -/
theorem valid_token_passthrough_witness :
    dispatch (useAxios ⟨some "200", some "r"⟩) 100 (Except.ok ⟨"300", "r3"⟩)
        ⟨some "200", some "r"⟩ =
      Except.ok ⟨⟨some (bearer "200")⟩, ⟨some "200", some "r"⟩, 0⟩ :=
  valid_token_passthrough ⟨some "200", some "r"⟩ "200" 200 100 (Except.ok ⟨"300", "r3"⟩)
    rfl rfl (by decide)

/-- C4: with no stored credentials the pipeline is a passthrough: the
outgoing request carries no Authorization header, no renewal call is made
and the persisted state is untouched, at any time and whatever the renewal
endpoint would have answered. -/
theorem no_credentials_passthrough (now : Nat) (outcome : Except String TokenPair) :
    dispatch (useAxios ⟨none, none⟩) now outcome ⟨none, none⟩ =
      Except.ok ⟨⟨none⟩, ⟨none, none⟩, 0⟩ := by
  simp [dispatch, useAxios, newRequest, requestInterceptor, truthy]

/-- C5: the interception step is total: whatever the captured credentials,
the time, the renewal outcome, the persisted state and the request, the
interceptor never propagates an error and always returns a request. -/
theorem interceptor_never_throws (ca cr : Option String) (now : Nat)
    (outcome : Except String TokenPair) (store : Store) (req : Req) :
    ∃ res, requestInterceptor ca cr now outcome store req = Except.ok res := by
  unfold requestInterceptor
  cases ca with
  | none => exact ⟨_, rfl⟩
  | some a =>
    cases cr with
    | none => exact ⟨_, rfl⟩
    | some r =>
      dsimp only
      by_cases hg : (a.isEmpty || r.isEmpty) = true
      · rw [if_pos hg]
        exact ⟨_, rfl⟩
      · rw [if_neg hg]
        by_cases hv : (!isAccessTokenExpired a now) = true
        · rw [if_pos hv]
          exact ⟨_, rfl⟩
        · rw [if_neg hv]
          cases outcome with
          | ok p => exact ⟨_, rfl⟩
          | error e => exact ⟨_, rfl⟩

/-- C6 counterexample: with an expired access token stored and no refresh
token, the request goes out carrying the expired token while no renewal was
made, so the attached token is neither currently valid nor freshly
renewed — the invariant as stated fails. -/
theorem invariant_violation_cex :
    ∃ res, dispatch (useAxios ⟨some "50", none⟩) 100 (Except.ok ⟨"200", "r2"⟩)
        ⟨some "50", none⟩ = Except.ok res ∧
      res.req.authorization = some (bearer "50") ∧
      ¬ (isAccessTokenExpired "50" 100 = false ∨ res.refreshCalls = 1) := by
  refine ⟨⟨⟨some (bearer "50")⟩, ⟨some "50", none⟩, 0⟩, rfl, rfl, ?_⟩
  decide

/-- C6 amended: the access token attached to an outgoing authenticated
request is either currently valid, or the freshly renewed token delivered
by the one renewal call, or the stale stored access token sent unchanged
(when no renewal happened or the renewal call failed). -/
theorem attached_token_cases (store : Store) (now : Nat)
    (outcome : Except String TokenPair) (res : StepResult) (s : String)
    (hres : dispatch (useAxios store) now outcome store = Except.ok res)
    (hauth : res.req.authorization = some s) :
    ∃ t, s = bearer t ∧
      (isAccessTokenExpired t now = false
        ∨ (∃ p, outcome = Except.ok p ∧ t = p.access ∧ res.refreshCalls = 1)
        ∨ store.access_token = some t) := by
  cases store with
  | mk at_ rt =>
    cases at_ with
    | none =>
      simp [dispatch, useAxios, newRequest, requestInterceptor, truthy] at hres
      subst hres
      simp at hauth
    | some a =>
      by_cases hae : a.isEmpty
      · cases rt with
        | none =>
          simp [dispatch, useAxios, newRequest, requestInterceptor, truthy, hae] at hres
          subst hres
          simp at hauth
        | some r =>
          simp [dispatch, useAxios, newRequest, requestInterceptor, truthy, hae] at hres
          subst hres
          simp at hauth
      · cases rt with
        | none =>
          simp [dispatch, useAxios, newRequest, requestInterceptor, truthy, hae] at hres
          subst hres
          simp at hauth
          exact ⟨a, hauth.symm, Or.inr (Or.inr rfl)⟩
        | some r =>
          by_cases hre : r.isEmpty
          · simp [dispatch, useAxios, newRequest, requestInterceptor, truthy, hae, hre] at hres
            subst hres
            simp at hauth
            exact ⟨a, hauth.symm, Or.inr (Or.inr rfl)⟩
          · by_cases hex : isAccessTokenExpired a now
            · cases outcome with
              | ok p =>
                simp [dispatch, useAxios, newRequest, requestInterceptor, truthy, hae, hre,
                  hex, Except.tryCatch, getRefreshedToken, setAuthUser, bind, Except.bind]
                  at hres
                subst hres
                simp at hauth
                exact ⟨p.access, hauth.symm, Or.inr (Or.inl ⟨p, rfl, rfl, rfl⟩)⟩
              | error e =>
                simp [dispatch, useAxios, newRequest, requestInterceptor, truthy, hae, hre,
                  hex, Except.tryCatch, getRefreshedToken, bind, Except.bind] at hres
                subst hres
                simp at hauth
                exact ⟨a, hauth.symm, Or.inr (Or.inr rfl)⟩
            · simp [dispatch, useAxios, newRequest, requestInterceptor, truthy, hae, hre,
                hex] at hres
              subst hres
              simp at hauth
              refine ⟨a, hauth.symm, Or.inl ?_⟩
              simpa using hex

/-- Witness for the amended C6 at a concrete valid token. -/
theorem attached_token_cases_witness :
    ∃ t, "Bearer 200" = bearer t ∧
      (isAccessTokenExpired t 100 = false
        ∨ (∃ p, (Except.ok ⟨"300", "r3"⟩ : Except String TokenPair) = Except.ok p ∧
            t = p.access ∧
            (⟨⟨some "Bearer 200"⟩, ⟨some "200", some "r"⟩, 0⟩ : StepResult).refreshCalls = 1)
        ∨ (⟨some "200", some "r"⟩ : Store).access_token = some t) :=
  attached_token_cases ⟨some "200", some "r"⟩ 100 (Except.ok ⟨"300", "r3"⟩)
    ⟨⟨some "Bearer 200"⟩, ⟨some "200", some "r"⟩, 0⟩ "Bearer 200" rfl rfl

/-- C7: a malformed access token (expiry not decodable) is treated exactly
as an expired one: the interceptor behaves identically to how it behaves
with any expired token, and in particular it makes the one renewal attempt
and raises no decode error. -/
theorem malformed_token_refreshes (a b r : String) (now : Nat)
    (outcome : Except String TokenPair) (store : Store) (req : Req)
    (hae : a.isEmpty = false) (hbe : b.isEmpty = false) (hre : r.isEmpty = false)
    (hmal : decodeExp a = none)
    (hbex : isAccessTokenExpired b now = true) :
    requestInterceptor (some a) (some r) now outcome store req
      = requestInterceptor (some b) (some r) now outcome store req ∧
    ∃ res, requestInterceptor (some a) (some r) now outcome store req
        = Except.ok res ∧ res.refreshCalls = 1 := by
  have hex : isAccessTokenExpired a now = true := malformed_expired hmal now
  constructor
  · simp [requestInterceptor, hae, hbe, hre, hex, hbex]
  · cases outcome with
    | ok p =>
      refine ⟨⟨{ req with authorization := some (bearer p.access) },
        setAuthUser p.access p.refresh store, 1⟩, ?_, rfl⟩
      simp [requestInterceptor, hae, hre, hex, Except.tryCatch, getRefreshedToken,
        setAuthUser, bind, Except.bind]
    | error e =>
      refine ⟨⟨req, store, 1⟩, ?_, rfl⟩
      simp [requestInterceptor, hae, hre, hex, Except.tryCatch, getRefreshedToken,
        bind, Except.bind]

/-- Witness for C7 at a concrete undecodable token. -/
theorem malformed_token_refreshes_witness :
    requestInterceptor (some "xx") (some "r") 100 (Except.ok ⟨"200", "r2"⟩)
        ⟨some "xx", some "r"⟩ ⟨some (bearer "xx")⟩
      = requestInterceptor (some "50") (some "r") 100 (Except.ok ⟨"200", "r2"⟩)
        ⟨some "xx", some "r"⟩ ⟨some (bearer "xx")⟩ ∧
    ∃ res, requestInterceptor (some "xx") (some "r") 100 (Except.ok ⟨"200", "r2"⟩)
        ⟨some "xx", some "r"⟩ ⟨some (bearer "xx")⟩ = Except.ok res ∧
      res.refreshCalls = 1 :=
  malformed_token_refreshes "xx" "50" "r" 100 (Except.ok ⟨"200", "r2"⟩)
    ⟨some "xx", some "r"⟩ ⟨some (bearer "xx")⟩ rfl rfl rfl rfl rfl

/-- C8: decoding an expiry is idempotent, and the renewal decision is a
pure function of the captured token strings and the current time: it does
not depend on the persisted state, the request, or anything the network
returns. -/
theorem expiry_decision_pure (t : String) (ca cr : Option String) (now : Nat)
    (o1 o2 : Except String TokenPair) (s1 s2 : Store) (q1 q2 : Req) :
    (decodeTwice t).1 = (decodeTwice t).2 ∧
    callCount (requestInterceptor ca cr now o1 s1 q1)
      = callCount (requestInterceptor ca cr now o2 s2 q2) := by
  refine ⟨rfl, ?_⟩
  cases ca with
  | none => cases cr <;> rfl
  | some a =>
    cases cr with
    | none => rfl
    | some r =>
      unfold requestInterceptor
      dsimp only
      by_cases hg : (a.isEmpty || r.isEmpty) = true
      · rw [if_pos hg, if_pos hg]
        rfl
      · rw [if_neg hg, if_neg hg]
        by_cases hv : (!isAccessTokenExpired a now) = true
        · rw [if_pos hv, if_pos hv]
          rfl
        · rw [if_neg hv, if_neg hv]
          cases o1 <;> cases o2 <;> rfl

/-- C9: with an access token stored but no refresh token, the request is
passed through unmodified, carrying the stored (possibly expired) access
token, and no renewal call is made. -/
theorem missing_refresh_passthrough (a : String) (now : Nat)
    (outcome : Except String TokenPair)
    (hae : a.isEmpty = false) :
    dispatch (useAxios ⟨some a, none⟩) now outcome ⟨some a, none⟩ =
      Except.ok ⟨⟨some (bearer a)⟩, ⟨some a, none⟩, 0⟩ := by
  simp [dispatch, useAxios, newRequest, requestInterceptor, truthy, hae]

/-- Witness for C9 at a concrete token already expired at the request time. -/
theorem missing_refresh_passthrough_witness :
    dispatch (useAxios ⟨some "50", none⟩) 100 (Except.ok ⟨"200", "r2"⟩)
        ⟨some "50", none⟩ =
      Except.ok ⟨⟨some (bearer "50")⟩, ⟨some "50", none⟩, 0⟩ :=
  missing_refresh_passthrough "50" 100 (Except.ok ⟨"200", "r2"⟩) rfl

/-- C10: the credential pair is captured once at construction. A first
request through the instance refreshes and overwrites the persisted state,
yet a second request through the same instance still judges expiry against
the old captured token and re-attempts a renewal, whatever the persisted
state then holds. -/
theorem captured_tokens_stale_refresh (store : Store) (a r : String) (now : Nat)
    (p : TokenPair) (o2 : Except String TokenPair)
    (ha : store.access_token = some a) (hr : store.refresh_token = some r)
    (hae : a.isEmpty = false) (hre : r.isEmpty = false)
    (hex : isAccessTokenExpired a now = true) :
    dispatch (useAxios store) now (Except.ok p) store =
      Except.ok ⟨⟨some (bearer p.access)⟩, ⟨some p.access, some p.refresh⟩, 1⟩ ∧
    ∀ res2, dispatch (useAxios store) now o2 ⟨some p.access, some p.refresh⟩
        = Except.ok res2 → res2.refreshCalls = 1 := by
  have hst : store = ⟨some a, some r⟩ := by
    cases store
    simp_all
  subst hst
  constructor
  · simp [dispatch, useAxios, newRequest, requestInterceptor, truthy, hae, hre, hex,
      Except.tryCatch, getRefreshedToken, setAuthUser, bind, Except.bind]
  · intro res2 h2
    cases o2 with
    | ok q =>
      simp [dispatch, useAxios, newRequest, requestInterceptor, truthy, hae, hre, hex,
        Except.tryCatch, getRefreshedToken, setAuthUser, bind, Except.bind] at h2
      rw [← h2]
    | error e =>
      simp [dispatch, useAxios, newRequest, requestInterceptor, truthy, hae, hre, hex,
        Except.tryCatch, getRefreshedToken, bind, Except.bind] at h2
      rw [← h2]

/-- Witness for C10: after a successful refresh delivering a token valid at
the request time, the same instance still re-attempts a renewal. -/
theorem captured_tokens_stale_refresh_witness :
    dispatch (useAxios ⟨some "50", some "r"⟩) 100 (Except.ok ⟨"200", "r2"⟩)
        ⟨some "50", some "r"⟩ =
      Except.ok ⟨⟨some (bearer "200")⟩, ⟨some "200", some "r2"⟩, 1⟩ ∧
    ∀ res2, dispatch (useAxios ⟨some "50", some "r"⟩) 100 (Except.ok ⟨"300", "r3"⟩)
        ⟨some "200", some "r2"⟩ = Except.ok res2 → res2.refreshCalls = 1 :=
  captured_tokens_stale_refresh ⟨some "50", some "r"⟩ "50" "r" 100 ⟨"200", "r2"⟩
    (Except.ok ⟨"300", "r3"⟩) rfl rfl rfl rfl rfl

end LMS
